import Mathlib

/-!
Verification development for the `ble-hci` host-side BLE HCI stack.

The attribute server (`src/attribute_server.rs`) is embedded from its
source.  The codec layers (ACL, L2CAP, ATT), the `Ble` controller with
`init`/`poll`, and the `Data` byte buffer live in repository files that
are not part of the provided sources; those are modelled from the
specification (and from the repository's own tests where the spec fixes
exact bytes).  Bytes are `Nat` values kept below 256; machine `u16`
arithmetic is made explicit with `% 65536`.
-/

set_option maxRecDepth 4000

namespace BleHci

instance {ε α : Type} [DecidableEq ε] [DecidableEq α] : DecidableEq (Except ε α) := fun x y =>
  match x, y with
  | .ok a, .ok b =>
    if h : a = b then isTrue (by rw [h]) else isFalse (fun hc => h (Except.ok.inj hc))
  | .error a, .error b =>
    if h : a = b then isTrue (by rw [h]) else isFalse (fun hc => h (Except.error.inj hc))
  | .ok _, .error _ => isFalse (fun hc => Except.noConfusion hc)
  | .error _, .ok _ => isFalse (fun hc => Except.noConfusion hc)

/-- Little-endian encoding of a 16-bit value into two bytes. -/
def u16le (v : Nat) : List Nat := [v % 256, v / 256 % 256]

/-- Modelled from the spec: `Uuid`: variant {Uuid16(16-bit), Uuid128(16-byte)};
equality only within the same variant. -/
inductive Uuid where
  | uuid16 (v : Nat)
  | uuid128 (bytes : List Nat)
deriving DecidableEq

/-- Modelled from the spec: a UUID's byte length (2 or 16) fully determines
its wire representation.  A 16-bit UUID is sent little-endian; the
repository's tests show a 128-bit UUID is sent with its byte array
reversed. -/
def Uuid.encode : Uuid → List Nat
  | .uuid16 v => u16le v
  | .uuid128 bytes => bytes.reverse

/-- Modelled from the spec: parse a 2- or 16-byte UUID field (inverse of
`Uuid.encode`); any other length is rejected. -/
def parseUuidBytes (bs : List Nat) : Option Uuid :=
  if bs.length = 2 then some (.uuid16 (bs.headD 0 + 256 * bs.tail.headD 0))
  else if bs.length = 16 then some (.uuid128 bs.reverse) else none

/-- Modelled from the spec: ATT error-code enumeration, which includes at
least AttributeNotFound; the tests fix its wire byte as 0x0a. -/
inductive AttErrorCode where
  | attributeNotFound
deriving DecidableEq

def AttErrorCode.toByte : AttErrorCode → Nat
  | .attributeNotFound => 0x0a

/-- Modelled from the spec: `Att`, tagged variant over the four recognized
request shapes. -/
inductive Att where
  | readByGroupTypeReq (start endH : Nat) (groupType : Uuid)
  | readByTypeReq (start endH : Nat) (attributeType : Uuid)
  | readReq (handle : Nat)
  | writeReq (handle : Nat) (data : List Nat)
deriving DecidableEq

/-- Modelled from the spec: AttParseError (unsupported opcode / truncated PDU). -/
inductive AttParseError where
  | unsupportedOpcode (op : Nat)
  | truncated
deriving DecidableEq

def ATT_READ_BY_GROUP_TYPE_REQUEST_OPCODE : Nat := 0x10
def ATT_READ_BY_TYPE_REQUEST_OPCODE : Nat := 0x08
def ATT_READ_REQUEST_OPCODE : Nat := 0x0a
def ATT_WRITE_REQUEST_OPCODE : Nat := 0x12

/-- Modelled from the spec: `parse(payload)` dispatches on the first opcode
byte to exactly four recognized request shapes; any other opcode fails
with an unsupported-opcode error.  Field layouts follow §4.5:
0x10/0x08 carry `start u16 LE, end u16 LE, uuid`; 0x0a carries
`handle u16 LE`; 0x12 carries `handle u16 LE` and the remaining bytes
as the value. -/
def parse_att (payload : List Nat) : Except AttParseError Att :=
  match payload with
  | [] => .error .truncated
  | op :: rest =>
    if op = ATT_READ_BY_GROUP_TYPE_REQUEST_OPCODE then
      match rest with
      | s0 :: s1 :: e0 :: e1 :: uuidBytes =>
        match parseUuidBytes uuidBytes with
        | some u => .ok (.readByGroupTypeReq (s0 + 256 * s1) (e0 + 256 * e1) u)
        | none => .error .truncated
      | _ => .error .truncated
    else if op = ATT_READ_BY_TYPE_REQUEST_OPCODE then
      match rest with
      | s0 :: s1 :: e0 :: e1 :: uuidBytes =>
        match parseUuidBytes uuidBytes with
        | some u => .ok (.readByTypeReq (s0 + 256 * s1) (e0 + 256 * e1) u)
        | none => .error .truncated
      | _ => .error .truncated
    else if op = ATT_READ_REQUEST_OPCODE then
      match rest with
      | [h0, h1] => .ok (.readReq (h0 + 256 * h1))
      | _ => .error .truncated
    else if op = ATT_WRITE_REQUEST_OPCODE then
      match rest with
      | h0 :: h1 :: value => .ok (.writeReq (h0 + 256 * h1) value)
      | _ => .error .truncated
    else .error (.unsupportedOpcode op)

/-- Modelled from the spec: serializer for the four request shapes of §4.5
(`[opcode, start u16 LE, end u16 LE, uuid]`, `[opcode, handle u16 LE]`,
`[opcode, handle u16 LE, value]`); the inverse of `parse_att` used to
state the codec roundtrip. -/
def att_encode_request : Att → List Nat
  | .readByGroupTypeReq s e u =>
      ATT_READ_BY_GROUP_TYPE_REQUEST_OPCODE :: (u16le s ++ u16le e ++ u.encode)
  | .readByTypeReq s e u =>
      ATT_READ_BY_TYPE_REQUEST_OPCODE :: (u16le s ++ u16le e ++ u.encode)
  | .readReq h => ATT_READ_REQUEST_OPCODE :: u16le h
  | .writeReq h d => ATT_WRITE_REQUEST_OPCODE :: (u16le h ++ d)

/-- Modelled from the spec: error response `[0x01, request_opcode,
handle u16 LE, error_code]`. -/
def att_encode_error_response (requestOpcode handle : Nat) (code : AttErrorCode) : List Nat :=
  [0x01, requestOpcode, handle % 256, handle / 256 % 256, code.toByte]

/-- Modelled from the spec: one group-type response entry (start, end, uuid). -/
structure AttributeData where
  startH : Nat
  endH : Nat
  uuid : Uuid
deriving DecidableEq

def AttributeData.encode (a : AttributeData) : List Nat :=
  u16le a.startH ++ u16le a.endH ++ a.uuid.encode

/-- Modelled from the spec and tests: 0x11 group-type response: opcode,
then the per-entry length byte (4 + uuid byte length, 6 for 16-bit
UUIDs per the tests), then the repeated start/end/uuid entries. -/
def att_encode_read_by_group_type_response (list : List AttributeData) : List Nat :=
  0x11 :: (4 + (match list with | [] => 2 | a :: _ => a.uuid.encode.length))
    :: list.flatMap AttributeData.encode

/-- Modelled from the spec: one type-response entry (handle, value). -/
structure AttributePayloadData where
  handle : Nat
  value : List Nat
deriving DecidableEq

/-- Modelled from the spec and tests: 0x09 type response: opcode, then the
per-entry length byte (2 + value length), then repeated handle/value
entries. -/
def att_encode_read_by_type_response (list : List AttributePayloadData) : List Nat :=
  0x09 :: (2 + (match list with | [] => 0 | a :: _ => a.value.length))
    :: list.flatMap (fun a => u16le a.handle ++ a.value)

/-- Modelled from the spec: 0x0b read response carries the raw value. -/
def att_encode_read_response (value : List Nat) : List Nat := 0x0b :: value

/-- Modelled from the spec: 0x13 write response is empty. -/
def att_encode_write_response : List Nat := [0x13]

/-- Modelled from the spec: L2capParseError (length mismatch / wrong channel). -/
inductive L2capParseError where
  | lengthMismatch
  | wrongChannel
deriving DecidableEq

/-- Modelled from the spec: `encode(payload)` prefixes
`[len_lo, len_hi, channel_lo=0x04, channel_hi=0x00]`. -/
def encode_l2cap (payload : List Nat) : List Nat :=
  u16le payload.length ++ [0x04, 0x00] ++ payload

/-- Modelled from the spec: `parse` is the inverse of `encode_l2cap` and
fails on length mismatch or wrong channel. -/
def parse_l2cap (bytes : List Nat) : Except L2capParseError (List Nat) :=
  match bytes with
  | l0 :: l1 :: c0 :: c1 :: rest =>
    if c0 + 256 * c1 ≠ 4 then .error .wrongChannel
    else if l0 + 256 * l1 ≠ rest.length then .error .lengthMismatch
    else .ok rest
  | _ => .error .lengthMismatch

/-- Modelled from the spec: ACL boundary flags. -/
inductive BoundaryFlag where
  | firstNonAutoFlushable
  | continuing
  | firstAutoFlushable
  | reserved
deriving DecidableEq

def BoundaryFlag.toBits : BoundaryFlag → Nat
  | .firstNonAutoFlushable => 0
  | .continuing => 1
  | .firstAutoFlushable => 2
  | .reserved => 3

def BoundaryFlag.ofBits (n : Nat) : BoundaryFlag :=
  match n % 4 with
  | 0 => .firstNonAutoFlushable
  | 1 => .continuing
  | 2 => .firstAutoFlushable
  | _ => .reserved

/-- Modelled from the spec: host-sent broadcast flags (kept distinct from
the controller-reported ones to preserve the direction asymmetry). -/
inductive HostBroadcastFlag where
  | noBroadcast
  | activeSlaveBroadcast
  | parkedSlaveBroadcast
  | reservedHost
deriving DecidableEq

def HostBroadcastFlag.toBits : HostBroadcastFlag → Nat
  | .noBroadcast => 0
  | .activeSlaveBroadcast => 1
  | .parkedSlaveBroadcast => 2
  | .reservedHost => 3

def HostBroadcastFlag.ofBits (n : Nat) : HostBroadcastFlag :=
  match n % 4 with
  | 0 => .noBroadcast
  | 1 => .activeSlaveBroadcast
  | 2 => .parkedSlaveBroadcast
  | _ => .reservedHost

/-- Modelled from the spec: controller-reported broadcast flags. -/
inductive ControllerBroadcastFlag where
  | pointToPoint
  | activeSlaveBroadcast
  | parkedSlaveBroadcast
  | reservedController
deriving DecidableEq

def ControllerBroadcastFlag.toBits : ControllerBroadcastFlag → Nat
  | .pointToPoint => 0
  | .activeSlaveBroadcast => 1
  | .parkedSlaveBroadcast => 2
  | .reservedController => 3

def ControllerBroadcastFlag.ofBits (n : Nat) : ControllerBroadcastFlag :=
  match n % 4 with
  | 0 => .pointToPoint
  | 1 => .activeSlaveBroadcast
  | 2 => .parkedSlaveBroadcast
  | _ => .reservedController

/-- Modelled from the spec: `AclPacket`: 12-bit handle + boundary flag +
broadcast flag + payload; one packet carries exactly one L2CAP frame. -/
structure AclPacket where
  handle : Nat
  boundaryFlag : BoundaryFlag
  bcFlag : ControllerBroadcastFlag
  data : List Nat
deriving DecidableEq

/-- Modelled from the spec: `encode(handle, boundary_flag, broadcast_flag,
payload)` → `[0x02, handle+flags_lo, handle+flags_hi, len_lo, len_hi,
payload…]`; the flags word packs a 12-bit handle, a 2-bit boundary flag
and a 2-bit broadcast flag. -/
def encode_acl_packet (handle : Nat) (pb : BoundaryFlag) (bc : HostBroadcastFlag)
    (payload : List Nat) : List Nat :=
  let flags := handle % 4096 + pb.toBits * 4096 + bc.toBits * 16384
  0x02 :: (u16le flags ++ u16le payload.length ++ payload)

/-- Modelled from the spec: ACL `parse` is the inverse and fails if the
declared length disagrees with the available bytes or the leading byte
is not 0x02. -/
def parse_acl_packet (bytes : List Nat) : Option AclPacket :=
  match bytes with
  | t :: f0 :: f1 :: l0 :: l1 :: rest =>
    if t ≠ 0x02 then none
    else if l0 + 256 * l1 ≠ rest.length then none
    else
      let flags := f0 + 256 * f1
      some ⟨flags % 4096, BoundaryFlag.ofBits (flags / 4096),
            ControllerBroadcastFlag.ofBits (flags / 16384), rest⟩
  | _ => none

/-- Modelled from the spec: `EventType`, tagged variant produced by event
parsing (error codes kept as raw bytes). -/
inductive EventType where
  | commandComplete (numPackets : Nat) (opcode : Nat) (data : List Nat)
  | disconnectComplete (status : Nat) (handle : Nat) (reason : Nat)
  | numberOfCompletedPackets (count : Nat) (handle : Nat) (completed : Nat)
deriving DecidableEq

/-- Modelled from the spec: `poll()` returns a parsed event or an inbound
ACL payload. -/
inductive PollResult where
  | event (e : EventType)
  | asyncData (p : AclPacket)
deriving DecidableEq

/-- Modelled from the spec: the HCI commands exercised here (only Reset is
needed by the claims). -/
inductive Command where
  | reset
deriving DecidableEq

def Command.opcode : Command → Nat
  | .reset => 0x0c03

def Command.params : Command → List Nat
  | .reset => []

/-- Modelled from the spec: `create_command_data(command)` emits
`[0x01, opcode_lo, opcode_hi, length, parameters…]`. -/
def create_command_data (c : Command) : List Nat :=
  [0x01, c.opcode % 256, c.opcode / 256 % 256, c.params.length] ++ c.params

/-- Modelled from the spec: command failures: Timeout (no matching
CommandComplete within the threshold) or Failed(status). -/
inductive HciError where
  | timeout
  | failed (status : Nat)
deriving DecidableEq

/-- Modelled from the spec: inspect one poll outcome for a CommandComplete
matching the expected opcode; a zero status byte (the first byte of the
response data) completes successfully, a non-zero one yields
Failed(status).  `none` means the awaited event has not arrived yet. -/
def checkCommandComplete (expectedOpcode : Nat) (p : Option PollResult) :
    Option (Except HciError EventType) :=
  match p with
  | some (.event (.commandComplete n op data)) =>
    if op = expectedOpcode then
      if data.headD 0 = 0 then some (.ok (.commandComplete n op data))
      else some (.error (.failed (data.headD 0)))
    else none
  | _ => none

/-- Modelled from the spec: the poll-until-timeout loop of command
execution: poll; if the matching CommandComplete arrived, finish;
otherwise read the monotonic clock and fail with Timeout once more than
1000 ms have elapsed since the command was written.  The loop is driven
by the finite streams of poll outcomes and clock readings supplied by
the transport; an exhausted clock stream ends in Timeout. -/
def waitCommandComplete (expectedOpcode startTime : Nat) :
    List (Option PollResult) → List Nat → Except HciError EventType
  | polls, [] =>
    match checkCommandComplete expectedOpcode (polls.headD none) with
    | some r => r
    | none => .error .timeout
  | polls, now :: clocks' =>
    match checkCommandComplete expectedOpcode (polls.headD none) with
    | some r => r
    | none =>
      if startTime + 1000 < now then .error .timeout
      else waitCommandComplete expectedOpcode startTime polls.tail clocks'

/-- Outcome of `init`: the bytes written to the transport and the result. -/
structure InitResult where
  written : List Nat
  result : Except HciError EventType

/-- Modelled from the spec: `init()` writes the serialized Reset command,
takes a first clock reading, then polls for the matching
CommandComplete (opcode 0x0c03) under the fixed 1000 ms timeout. -/
def Ble.init (polls : List (Option PollResult)) (clocks : List Nat) : InitResult :=
  { written := create_command_data .reset
    result := waitCommandComplete (Command.reset).opcode (clocks.headD 0) polls clocks.tail }

/-!
### Attribute server (embedded from `src/attribute_server.rs`)

`Service` carries the fields of the Rust struct; the `FnMut` read
callback is represented by the buffer it returns (`readReturn`), and
callback invocations are made observable through an explicit event log
produced by the dispatch functions, so that "invokes exactly that
service's callback exactly once" is a statement about the log.  Handle
fields are u16 in the source; all arithmetic on them is taken `% 65536`.
-/

def ATT_READABLE : Nat := 0x02
def ATT_WRITEABLE : Nat := 0x08

structure Service where
  uuid : Uuid
  permissions : Nat
  readReturn : List Nat
  startHandle : Nat := 0
  endHandle : Nat := 0
  characteristicsHandle : Nat := 0
deriving DecidableEq

/-- `Service::new` leaves the three handles zero. -/
def Service.mkNew (uuid : Uuid) (permissions : Nat) (readReturn : List Nat) : Service :=
  { uuid := uuid, permissions := permissions, readReturn := readReturn }

def PRIMARY_SERVICE_UUID16 : Uuid := .uuid16 0x2800
def CHARACTERISTIC_UUID16 : Uuid := .uuid16 0x2803

inductive AttributeServerError where
  | l2capError (e : L2capParseError)
  | attError (e : AttParseError)
deriving DecidableEq

/-- The handle-assignment loop of `AttributeServer::new`: starting from
`current_handle`, each service receives `start_handle = current_handle`,
`end_handle = characteristics_handle = current_handle + 2`, and
`current_handle` advances by 3 (u16 arithmetic). -/
def assignHandles : Nat → List Service → List Service
  | _, [] => []
  | cur, s :: rest =>
    { s with startHandle := cur % 65536,
             endHandle := (cur + 2) % 65536,
             characteristicsHandle := (cur + 2) % 65536 }
      :: assignHandles ((cur + 3) % 65536) rest

/-- `AttributeServer::new`: assign handles sequentially starting at 1. -/
def AttributeServer.new (services : List Service) : List Service :=
  assignHandles 1 services

/-- One invocation of a service callback, recorded by index. -/
inductive CallEvent where
  | readCall (i : Nat)
  | writeCall (i : Nat) (data : List Nat)
deriving DecidableEq

/-- The linear scan of `handle_read_req`/`handle_write_req`: first service
whose `characteristics_handle` equals the request handle, with its index. -/
def findServiceAux (handle : Nat) : Nat → List Service → Option (Nat × Service)
  | _, [] => none
  | i, s :: rest =>
    if s.characteristicsHandle = handle then some (i, s)
    else findServiceAux handle (i + 1) rest

def findService (services : List Service) (handle : Nat) : Option (Nat × Service) :=
  findServiceAux handle 0 services

/-- `handle_read_by_group_type_req`: only the primary-service UUID 0x2800
is served; the first service with `start_handle ≥ start` and
`end_handle ≤ end` yields a single group-type entry, otherwise an
AttributeNotFound error response referencing the request's start. -/
def handle_read_by_group_type_req (services : List Service)
    (start endH : Nat) (groupType : Uuid) : List Nat :=
  let found :=
    if groupType = PRIMARY_SERVICE_UUID16 then
      services.find? (fun s => decide (s.startHandle ≥ start) && decide (s.endHandle ≤ endH))
    else none
  match found with
  | some s =>
    att_encode_read_by_group_type_response
      [⟨s.startHandle, s.endHandle, groupType⟩]
  | none =>
    att_encode_error_response ATT_READ_BY_GROUP_TYPE_REQUEST_OPCODE start
      .attributeNotFound

/-- `handle_read_by_type_req`: only the characteristic-declaration UUID
0x2803 is served; the first service in range yields one type-response
entry at `start_handle + 1` whose value is
`[permissions, characteristics_handle u16 LE, uuid bytes]`, otherwise
an AttributeNotFound error response. -/
def handle_read_by_type_req (services : List Service)
    (start endH : Nat) (attributeType : Uuid) : List Nat :=
  let found :=
    if attributeType = CHARACTERISTIC_UUID16 then
      services.find? (fun s => decide (s.startHandle ≥ start) && decide (s.endHandle ≤ endH))
    else none
  match found with
  | some s =>
    att_encode_read_by_type_response
      [⟨(s.startHandle + 1) % 65536,
        s.permissions :: (u16le s.characteristicsHandle ++ s.uuid.encode)⟩]
  | none =>
    att_encode_error_response ATT_READ_BY_TYPE_REQUEST_OPCODE start
      .attributeNotFound

/-- `handle_read_req`: first service whose `characteristics_handle`
matches is asked for its value (one read-callback invocation) and the
value is wrapped in a read response; no match panics (`none`). -/
def handle_read_req (services : List Service) (handle : Nat) :
    Option (List CallEvent × List Nat) :=
  match findService services handle with
  | some (i, s) => some ([.readCall i], att_encode_read_response s.readReturn)
  | none => none

/-- `handle_write_req`: first service whose `characteristics_handle`
matches receives the value (one write-callback invocation) and an empty
write response is sent; no match panics (`none`). -/
def handle_write_req (services : List Service) (handle : Nat) (data : List Nat) :
    Option (List CallEvent × List Nat) :=
  match findService services handle with
  | some (i, _) => some ([.writeCall i data], att_encode_write_response)
  | none => none

/-- `write_att`: every response goes through L2CAP encode, then ACL encode
with connection handle 0x0000, boundary FirstAutoFlushable and
broadcast NoBroadcast, then to the transport. -/
def write_att (data : List Nat) : List Nat :=
  encode_acl_packet 0x0000 .firstAutoFlushable .noBroadcast (encode_l2cap data)

/-- Result of one `do_work` cycle: the callback-invocation log and the
frames written to the transport, a parse error, or the fatal abort of
the unmatched read/write paths. -/
inductive DoWorkResult where
  | ok (calls : List CallEvent) (written : List (List Nat))
  | fatalAbort
  | error (e : AttributeServerError)
deriving DecidableEq

/-- `AttributeServer::do_work`: poll once; ignore events and silence;
unwrap ACL → L2CAP → ATT and dispatch on the request kind. -/
def do_work (services : List Service) (packet : Option PollResult) : DoWorkResult :=
  match packet with
  | none => .ok [] []
  | some (.event _) => .ok [] []
  | some (.asyncData p) =>
    match parse_l2cap p.data with
    | .error e => .error (.l2capError e)
    | .ok l2capPacket =>
      match parse_att l2capPacket with
      | .error e => .error (.attError e)
      | .ok att =>
        match att with
        | .readByGroupTypeReq s e g =>
          .ok [] [write_att (handle_read_by_group_type_req services s e g)]
        | .readByTypeReq s e t =>
          .ok [] [write_att (handle_read_by_type_req services s e t)]
        | .readReq h =>
          match handle_read_req services h with
          | some (calls, resp) => .ok calls [write_att resp]
          | none => .fatalAbort
        | .writeReq h d =>
          match handle_write_req services h d with
          | some (calls, resp) => .ok calls [write_att resp]
          | none => .fatalAbort

/-- An inbound ACL packet carrying an ATT request payload, as delivered by
`poll` (flags as in the repository's inbound test frames). -/
def attReqPacket (attPayload : List Nat) : PollResult :=
  .asyncData ⟨0, .firstAutoFlushable, .pointToPoint, encode_l2cap attPayload⟩

/-- A UUID value is within its field range: 16-bit payloads fit in 16
bits, 128-bit payloads have exactly 16 bytes. -/
def Uuid.wellFormed : Uuid → Bool
  | .uuid16 v => v < 65536
  | .uuid128 bs => bs.length = 16

/-- An ATT request value is within its field ranges (handles fit in u16,
UUIDs are well formed). -/
def Att.wellFormed : Att → Bool
  | .readByGroupTypeReq s e u => decide (s < 65536) && decide (e < 65536) && u.wellFormed
  | .readByTypeReq s e u => decide (s < 65536) && decide (e < 65536) && u.wellFormed
  | .readReq h => decide (h < 65536)
  | .writeReq h d => decide (h < 65536) && decide (d.length < 65533)

/-- The two sample services used by the repository's attribute-server
tests (read callback returning "Hello", resp. nothing). -/
def svcSample1 : Service :=
  Service.mkNew (.uuid128 [0xC9, 0x15, 0x15, 0x96, 0x54, 0x56, 0x64, 0xB3,
    0x38, 0x45, 0x26, 0x5D, 0xF1, 0x62, 0x6A, 0xA8]) (ATT_READABLE + ATT_WRITEABLE)
    [0x48, 0x65, 0x6c, 0x6c, 0x6f]

def svcSample2 : Service :=
  Service.mkNew (.uuid128 [0xC8, 0x15, 0x15, 0x96, 0x54, 0x56, 0x64, 0xB3,
    0x38, 0x45, 0x26, 0x5D, 0xF1, 0x62, 0x6A, 0xA8]) (ATT_READABLE + ATT_WRITEABLE) []

/-!
### Helper lemmas
-/

theorem assignHandles_getElem (l : List Service) (c i : Nat) :
    (assignHandles c l)[i]? = (l[i]?).map (fun s =>
      { s with startHandle := (c + 3 * i) % 65536,
               endHandle := (c + 3 * i + 2) % 65536,
               characteristicsHandle := (c + 3 * i + 2) % 65536 }) := by
  induction l generalizing c i with
  | nil => simp [assignHandles]
  | cons s rest ih =>
    cases i with
    | zero => simp [assignHandles]
    | succ n =>
      have h1 : (c + 3) % 65536 + 3 * n = ((c + 3) % 65536 + 3 * n) := rfl
      have e1 : ((c + 3) % 65536 + 3 * n) % 65536 = (c + 3 * (n + 1)) % 65536 := by omega
      have e2 : ((c + 3) % 65536 + 3 * n + 2) % 65536 = (c + 3 * (n + 1) + 2) % 65536 := by omega
      simp only [assignHandles, List.getElem?_cons_succ, ih, e1, e2]

theorem parse_l2cap_encode (p : List Nat) (h : p.length < 65536) :
    parse_l2cap (encode_l2cap p) = .ok p := by
  have hlen : p.length % 256 + 256 * (p.length / 256 % 256) = p.length := by omega
  simp [encode_l2cap, parse_l2cap, u16le, hlen]

theorem parseUuidBytes_encode (u : Uuid) (h : u.wellFormed) :
    parseUuidBytes u.encode = some u := by
  cases u with
  | uuid16 v =>
    simp only [Uuid.wellFormed, decide_eq_true_eq] at h
    have : v % 256 + 256 * (v / 256 % 256) = v := by omega
    simp [Uuid.encode, parseUuidBytes, u16le, this]
  | uuid128 bs =>
    simp only [Uuid.wellFormed, decide_eq_true_eq] at h
    simp [Uuid.encode, parseUuidBytes, h]

theorem parse_att_encode (r : Att) (h : r.wellFormed) :
    parse_att (att_encode_request r) = .ok r := by
  cases r with
  | readByGroupTypeReq s e u =>
    simp only [Att.wellFormed, Bool.and_eq_true, decide_eq_true_eq] at h
    obtain ⟨⟨hs, he⟩, hu⟩ := h
    have es : s % 256 + 256 * (s / 256 % 256) = s := by omega
    have ee : e % 256 + 256 * (e / 256 % 256) = e := by omega
    simp [att_encode_request, parse_att, u16le, ATT_READ_BY_GROUP_TYPE_REQUEST_OPCODE,
      parseUuidBytes_encode u hu, es, ee]
  | readByTypeReq s e u =>
    simp only [Att.wellFormed, Bool.and_eq_true, decide_eq_true_eq] at h
    obtain ⟨⟨hs, he⟩, hu⟩ := h
    have es : s % 256 + 256 * (s / 256 % 256) = s := by omega
    have ee : e % 256 + 256 * (e / 256 % 256) = e := by omega
    simp [att_encode_request, parse_att, u16le, ATT_READ_BY_GROUP_TYPE_REQUEST_OPCODE,
      ATT_READ_BY_TYPE_REQUEST_OPCODE, parseUuidBytes_encode u hu, es, ee]
  | readReq hd =>
    simp only [Att.wellFormed, decide_eq_true_eq] at h
    have eh : hd % 256 + 256 * (hd / 256 % 256) = hd := by omega
    simp [att_encode_request, parse_att, u16le, ATT_READ_BY_GROUP_TYPE_REQUEST_OPCODE,
      ATT_READ_BY_TYPE_REQUEST_OPCODE, ATT_READ_REQUEST_OPCODE, eh]
  | writeReq hd d =>
    simp only [Att.wellFormed, Bool.and_eq_true, decide_eq_true_eq] at h
    have eh : hd % 256 + 256 * (hd / 256 % 256) = hd := by omega
    simp [att_encode_request, parse_att, u16le, ATT_READ_BY_GROUP_TYPE_REQUEST_OPCODE,
      ATT_READ_BY_TYPE_REQUEST_OPCODE, ATT_READ_REQUEST_OPCODE, ATT_WRITE_REQUEST_OPCODE, eh]

/-- Dispatching a well-formed encoded ATT request through `do_work`
reduces to the corresponding handler. -/
theorem do_work_attReqPacket (services : List Service) (r : Att) (h : r.wellFormed) :
    do_work services (some (attReqPacket (att_encode_request r))) =
      (match r with
       | .readByGroupTypeReq s e g =>
         .ok [] [write_att (handle_read_by_group_type_req services s e g)]
       | .readByTypeReq s e t =>
         .ok [] [write_att (handle_read_by_type_req services s e t)]
       | .readReq hd =>
         (match handle_read_req services hd with
          | some (calls, resp) => .ok calls [write_att resp]
          | none => .fatalAbort)
       | .writeReq hd d =>
         (match handle_write_req services hd d with
          | some (calls, resp) => .ok calls [write_att resp]
          | none => .fatalAbort)) := by
  have hlen : (att_encode_request r).length < 65536 := by
    cases r with
    | readByGroupTypeReq s e u =>
      cases u with
      | uuid16 v => simp [att_encode_request, u16le, Uuid.encode]
      | uuid128 bs =>
        simp only [Att.wellFormed, Bool.and_eq_true, decide_eq_true_eq, Uuid.wellFormed] at h
        simp [att_encode_request, u16le, Uuid.encode, h.2]
    | readByTypeReq s e u =>
      cases u with
      | uuid16 v => simp [att_encode_request, u16le, Uuid.encode]
      | uuid128 bs =>
        simp only [Att.wellFormed, Bool.and_eq_true, decide_eq_true_eq, Uuid.wellFormed] at h
        simp [att_encode_request, u16le, Uuid.encode, h.2]
    | readReq hd => simp [att_encode_request, u16le]
    | writeReq hd d =>
      simp only [Att.wellFormed, Bool.and_eq_true, decide_eq_true_eq] at h
      simp only [att_encode_request, u16le, List.length_cons, List.length_append,
        List.length_nil]
      omega
  simp only [do_work, attReqPacket, parse_l2cap_encode _ hlen, parse_att_encode r h]
  cases r <;> rfl

theorem BoundaryFlag.boundary_toBits_lt (pb : BoundaryFlag) : pb.toBits < 4 := by
  cases pb <;> decide

theorem BoundaryFlag.boundary_ofBits_congr {a b : Nat} (h : a % 4 = b % 4) :
    BoundaryFlag.ofBits a = BoundaryFlag.ofBits b := by
  unfold BoundaryFlag.ofBits
  rw [h]

theorem BoundaryFlag.boundary_ofBits_toBits (pb : BoundaryFlag) : BoundaryFlag.ofBits pb.toBits = pb := by
  cases pb <;> rfl

theorem BoundaryFlag.boundary_toBits_ofBits (n : Nat) : (BoundaryFlag.ofBits n).toBits = n % 4 := by
  unfold BoundaryFlag.ofBits
  have h4 : n % 4 = 0 ∨ n % 4 = 1 ∨ n % 4 = 2 ∨ n % 4 = 3 := by omega
  rcases h4 with h | h | h | h <;> rw [h] <;> rfl

theorem HostBroadcastFlag.host_toBits_lt (bc : HostBroadcastFlag) : bc.toBits < 4 := by
  cases bc <;> decide

theorem HostBroadcastFlag.host_toBits_ofBits (n : Nat) :
    (HostBroadcastFlag.ofBits n).toBits = n % 4 := by
  unfold HostBroadcastFlag.ofBits
  have h4 : n % 4 = 0 ∨ n % 4 = 1 ∨ n % 4 = 2 ∨ n % 4 = 3 := by omega
  rcases h4 with h | h | h | h <;> rw [h] <;> rfl

theorem ControllerBroadcastFlag.controller_ofBits_congr {a b : Nat} (h : a % 4 = b % 4) :
    ControllerBroadcastFlag.ofBits a = ControllerBroadcastFlag.ofBits b := by
  unfold ControllerBroadcastFlag.ofBits
  rw [h]

theorem ControllerBroadcastFlag.controller_toBits_ofBits (n : Nat) :
    (ControllerBroadcastFlag.ofBits n).toBits = n % 4 := by
  unfold ControllerBroadcastFlag.ofBits
  have h4 : n % 4 = 0 ∨ n % 4 = 1 ∨ n % 4 = 2 ∨ n % 4 = 3 := by omega
  rcases h4 with h | h | h | h <;> rw [h] <;> rfl

theorem parse_acl_encode (h : Nat) (pb : BoundaryFlag) (bc : HostBroadcastFlag)
    (payload : List Nat) (hh : h < 4096) (hlen : payload.length < 65536) :
    parse_acl_packet (encode_acl_packet h pb bc payload) =
      some ⟨h, pb, ControllerBroadcastFlag.ofBits bc.toBits, payload⟩ := by
  have hpb : pb.toBits < 4 := pb.boundary_toBits_lt
  have hbc : bc.toBits < 4 := bc.host_toBits_lt
  simp only [encode_acl_packet, parse_acl_packet, u16le, List.cons_append,
    List.nil_append]
  rw [if_neg (by norm_num)]
  rw [if_neg (by omega)]
  have hflags : (h % 4096 + pb.toBits * 4096 + bc.toBits * 16384) % 256 +
      256 * ((h % 4096 + pb.toBits * 4096 + bc.toBits * 16384) / 256 % 256) =
      h % 4096 + pb.toBits * 4096 + bc.toBits * 16384 := by omega
  rw [hflags]
  have h1 : (h % 4096 + pb.toBits * 4096 + bc.toBits * 16384) % 4096 = h := by omega
  have h2 : BoundaryFlag.ofBits ((h % 4096 + pb.toBits * 4096 + bc.toBits * 16384) / 4096)
      = pb :=
    (BoundaryFlag.boundary_ofBits_congr (by omega)).trans pb.boundary_ofBits_toBits
  have h3 : ControllerBroadcastFlag.ofBits
        ((h % 4096 + pb.toBits * 4096 + bc.toBits * 16384) / 16384)
      = ControllerBroadcastFlag.ofBits bc.toBits :=
    ControllerBroadcastFlag.controller_ofBits_congr (by omega)
  rw [h1, h2, h3]

theorem encode_parse_acl (bytes : List Nat) (p : AclPacket)
    (hb : ∀ b ∈ bytes, b < 256) (hp : parse_acl_packet bytes = some p) :
    encode_acl_packet p.handle p.boundaryFlag (HostBroadcastFlag.ofBits p.bcFlag.toBits)
      p.data = bytes := by
  match bytes, hp with
  | t :: f0 :: f1 :: l0 :: l1 :: rest, hp =>
    have ht2 : t < 256 := hb t (by simp)
    have hf0 : f0 < 256 := hb f0 (by simp)
    have hf1 : f1 < 256 := hb f1 (by simp)
    have hl0 : l0 < 256 := hb l0 (by simp)
    have hl1 : l1 < 256 := hb l1 (by simp)
    simp only [parse_acl_packet] at hp
    by_cases ht : t ≠ 0x02
    · rw [if_pos ht] at hp
      exact absurd hp (by simp)
    · rw [if_neg ht] at hp
      by_cases hlen : l0 + 256 * l1 ≠ rest.length
      · rw [if_pos hlen] at hp
        exact absurd hp (by simp)
      · rw [if_neg hlen] at hp
        have hpe := Option.some.inj hp
        subst hpe
        simp only [encode_acl_packet, u16le, BoundaryFlag.boundary_toBits_ofBits,
          HostBroadcastFlag.host_toBits_ofBits, ControllerBroadcastFlag.controller_toBits_ofBits]
        push_neg at ht hlen
        subst ht
        have hF : f0 + 256 * f1 < 65536 := by omega
        have e1 : (f0 + 256 * f1) % 4096 % 4096 +
            (f0 + 256 * f1) / 4096 % 4 * 4096 +
            (f0 + 256 * f1) / 16384 % 4 % 4 * 16384 = f0 + 256 * f1 := by omega
        rw [e1]
        have e2 : (f0 + 256 * f1) % 256 = f0 := by omega
        have e3 : (f0 + 256 * f1) / 256 % 256 = f1 := by omega
        have e4 : rest.length % 256 = l0 := by omega
        have e5 : rest.length / 256 % 256 = l1 := by omega
        rw [e2, e3, e4, e5]
        rfl

theorem encode_parse_l2cap (bytes : List Nat) (p : List Nat)
    (hb : ∀ b ∈ bytes, b < 256) (hp : parse_l2cap bytes = .ok p) :
    encode_l2cap p = bytes := by
  match bytes, hp with
  | l0 :: l1 :: c0 :: c1 :: rest, hp =>
    have hl0 : l0 < 256 := hb l0 (by simp)
    have hl1 : l1 < 256 := hb l1 (by simp)
    have hc0 : c0 < 256 := hb c0 (by simp)
    have hc1 : c1 < 256 := hb c1 (by simp)
    simp only [parse_l2cap] at hp
    by_cases hch : c0 + 256 * c1 ≠ 4
    · rw [if_pos hch] at hp
      exact absurd hp (by simp)
    · rw [if_neg hch] at hp
      by_cases hlen : l0 + 256 * l1 ≠ rest.length
      · rw [if_pos hlen] at hp
        exact absurd hp (by simp)
      · rw [if_neg hlen] at hp
        have hpe := Except.ok.inj hp
        subst hpe
        push_neg at hch hlen
        simp only [encode_l2cap, u16le]
        have e1 : rest.length % 256 = l0 := by omega
        have e2 : rest.length / 256 % 256 = l1 := by omega
        have e3 : c0 = 4 := by omega
        have e4 : c1 = 0 := by omega
        rw [e1, e2, e3, e4]
        rfl

theorem uuid_encode_parse (bs : List Nat) (u : Uuid)
    (hb : ∀ b ∈ bs, b < 256) (h : parseUuidBytes bs = some u) : u.encode = bs := by
  unfold parseUuidBytes at h
  by_cases h2 : bs.length = 2
  · rw [if_pos h2] at h
    have hue := Option.some.inj h
    subst hue
    match bs, h2 with
    | [b0, b1], _ =>
      have hb0 : b0 < 256 := hb b0 (by simp)
      have hb1 : b1 < 256 := hb b1 (by simp)
      simp only [Uuid.encode, u16le, List.headD, List.tail]
      have e1 : (b0 + 256 * b1) % 256 = b0 := by omega
      have e2 : (b0 + 256 * b1) / 256 % 256 = b1 := by omega
      rw [e1, e2]
  · rw [if_neg h2] at h
    by_cases h16 : bs.length = 16
    · rw [if_pos h16] at h
      have hue := Option.some.inj h
      subst hue
      simp [Uuid.encode]
    · rw [if_neg h16] at h
      exact absurd h (by simp)

theorem att_encode_parse (bytes : List Nat) (r : Att)
    (hb : ∀ b ∈ bytes, b < 256) (hp : parse_att bytes = .ok r) :
    att_encode_request r = bytes := by
  match bytes, hp with
  | op :: rest, hp =>
    simp only [parse_att, ATT_READ_BY_GROUP_TYPE_REQUEST_OPCODE,
      ATT_READ_BY_TYPE_REQUEST_OPCODE, ATT_READ_REQUEST_OPCODE,
      ATT_WRITE_REQUEST_OPCODE] at hp
    by_cases h10 : op = 0x10
    · subst h10
      rw [if_pos rfl] at hp
      match rest, hp with
      | s0 :: s1 :: e0 :: e1 :: ub, hp =>
        have hs0 : s0 < 256 := hb s0 (by simp)
        have hs1 : s1 < 256 := hb s1 (by simp)
        have he0 : e0 < 256 := hb e0 (by simp)
        have he1 : e1 < 256 := hb e1 (by simp)
        cases hu : parseUuidBytes ub with
        | none => simp [hu] at hp
        | some u =>
          simp only [hu] at hp
          have hre := Except.ok.inj hp
          subst hre
          have hube : u.encode = ub :=
            uuid_encode_parse ub u (fun b hbm => hb b (by simp [hbm])) hu
          simp only [att_encode_request, u16le, ATT_READ_BY_GROUP_TYPE_REQUEST_OPCODE, hube]
          have q1 : (s0 + 256 * s1) % 256 = s0 := by omega
          have q2 : (s0 + 256 * s1) / 256 % 256 = s1 := by omega
          have q3 : (e0 + 256 * e1) % 256 = e0 := by omega
          have q4 : (e0 + 256 * e1) / 256 % 256 = e1 := by omega
          rw [q1, q2, q3, q4]
          rfl
    · rw [if_neg h10] at hp
      by_cases h08 : op = 0x08
      · subst h08
        rw [if_pos rfl] at hp
        match rest, hp with
        | s0 :: s1 :: e0 :: e1 :: ub, hp =>
          have hs0 : s0 < 256 := hb s0 (by simp)
          have hs1 : s1 < 256 := hb s1 (by simp)
          have he0 : e0 < 256 := hb e0 (by simp)
          have he1 : e1 < 256 := hb e1 (by simp)
          cases hu : parseUuidBytes ub with
          | none => simp [hu] at hp
          | some u =>
            simp only [hu] at hp
            have hre := Except.ok.inj hp
            subst hre
            have hube : u.encode = ub :=
              uuid_encode_parse ub u (fun b hbm => hb b (by simp [hbm])) hu
            simp only [att_encode_request, u16le, ATT_READ_BY_TYPE_REQUEST_OPCODE, hube]
            have q1 : (s0 + 256 * s1) % 256 = s0 := by omega
            have q2 : (s0 + 256 * s1) / 256 % 256 = s1 := by omega
            have q3 : (e0 + 256 * e1) % 256 = e0 := by omega
            have q4 : (e0 + 256 * e1) / 256 % 256 = e1 := by omega
            rw [q1, q2, q3, q4]
            rfl
      · rw [if_neg h08] at hp
        by_cases h0a : op = 0x0a
        · subst h0a
          rw [if_pos rfl] at hp
          match rest, hp with
          | [h0, h1], hp =>
            have hh0 : h0 < 256 := hb h0 (by simp)
            have hh1 : h1 < 256 := hb h1 (by simp)
            have hre := Except.ok.inj hp
            subst hre
            simp only [att_encode_request, u16le, ATT_READ_REQUEST_OPCODE]
            have e1 : (h0 + 256 * h1) % 256 = h0 := by omega
            have e2 : (h0 + 256 * h1) / 256 % 256 = h1 := by omega
            rw [e1, e2]
        · rw [if_neg h0a] at hp
          by_cases h12 : op = 0x12
          · subst h12
            rw [if_pos rfl] at hp
            match rest, hp with
            | h0 :: h1 :: value, hp =>
              have hh0 : h0 < 256 := hb h0 (by simp)
              have hh1 : h1 < 256 := hb h1 (by simp)
              have hre := Except.ok.inj hp
              subst hre
              simp only [att_encode_request, u16le, ATT_WRITE_REQUEST_OPCODE]
              have e1 : (h0 + 256 * h1) % 256 = h0 := by omega
              have e2 : (h0 + 256 * h1) / 256 % 256 = h1 := by omega
              rw [e1, e2]
              rfl
          · rw [if_neg h12] at hp
            exact absurd hp (by simp)

theorem findServiceAux_spec (l : List Service) (h : Nat) :
    ∀ (off i : Nat) (hi : i < l.length),
      (l.get ⟨i, hi⟩).characteristicsHandle = h →
      (∀ j (hj : j < l.length), j < i → (l.get ⟨j, hj⟩).characteristicsHandle ≠ h) →
      findServiceAux h off l = some (off + i, l.get ⟨i, hi⟩) := by
  induction l with
  | nil => intro off i hi; exact absurd hi (by simp)
  | cons s rest ih =>
    intro off i hi hmatch hfirst
    by_cases hs : s.characteristicsHandle = h
    · have hi0 : i = 0 := by
        by_contra hne
        exact hfirst 0 (by simp) (Nat.pos_of_ne_zero hne) hs
      subst hi0
      simp [findServiceAux, hs]
    · cases i with
      | zero => exact absurd (by simpa using hmatch) hs
      | succ n =>
        have hn : n < rest.length := by simpa using Nat.lt_of_succ_lt_succ hi
        have hrec := ih (off + 1) n hn (by simpa using hmatch)
          (fun j hj hjn => by
            have := hfirst (j + 1) (by simpa using Nat.succ_lt_succ hj)
              (Nat.succ_lt_succ hjn)
            simpa using this)
        have hoff : off + 1 + n = off + (n + 1) := by omega
        simp only [findServiceAux, if_neg hs, hrec, hoff, List.get_cons_succ]

theorem findServiceAux_none (h : Nat) (l : List Service)
    (hnone : ∀ svc ∈ l, svc.characteristicsHandle ≠ h) :
    ∀ off, findServiceAux h off l = none := by
  induction l with
  | nil => intro off; rfl
  | cons s rest ih =>
    intro off
    have hs : s.characteristicsHandle ≠ h := hnone s (by simp)
    have := ih (fun svc hm => hnone svc (by simp [hm]))
    simp [findServiceAux, hs, this]

/-!
### Claim theorems
-/

/-- C1 (amended): for every slice of services passed to
`AttributeServer::new`, after construction the service at 0-based index
i has `start_handle = 1 + 3*i` and
`characteristics_handle = end_handle = start_handle + 2`, for every i
in [0,N) whose handles stay within the 16-bit handle type
(`3*i + 3 < 2^16`). -/
theorem c1_handle_assignment (services : List Service) (i : Nat)
    (hi : i < services.length) (hbound : 3 * i + 3 < 65536) :
    ((AttributeServer.new services)[i]?).map
        (fun s => (s.startHandle, s.characteristicsHandle, s.endHandle))
      = some (1 + 3 * i, (1 + 3 * i) + 2, (1 + 3 * i) + 2) := by
  have hs : services[i]? = some (services.get ⟨i, hi⟩) := List.getElem?_eq_getElem hi
  have e1 : (1 + 3 * i) % 65536 = 1 + 3 * i := by omega
  have e2 : (1 + 3 * i + 2) % 65536 = 1 + 3 * i + 2 := by omega
  simp [AttributeServer.new, assignHandles_getElem, hs, e1, e2]

/-- C1 witness: in a two-service slice, service 1 gets handles (4, 6, 6). -/
theorem c1_handle_assignment_witness :
    1 < (List.length [svcSample1, svcSample2]) ∧ 3 * 1 + 3 < 65536 ∧
    ((AttributeServer.new [svcSample1, svcSample2])[1]?).map
        (fun s => (s.startHandle, s.characteristicsHandle, s.endHandle))
      = some (1 + 3 * 1, (1 + 3 * 1) + 2, (1 + 3 * 1) + 2) :=
  ⟨by decide, by decide,
    c1_handle_assignment [svcSample1, svcSample2] 1 (by decide) (by decide)⟩

/-- C1 counterexample: the claim as stated fails on a slice of 21846
services: the handle fields are u16, so service 21845 receives the
wrapped start handle `(1 + 3*21845) % 2^16 = 0`, not `1 + 3*21845`. -/
theorem c1_handle_assignment_counterexample :
    ((AttributeServer.new (List.replicate 21846 svcSample1))[21845]?).map
        Service.startHandle = some 0
    ∧ (0 : Nat) ≠ 1 + 3 * 21845 := by
  constructor
  · have e0 : (1 + 3 * 21845) % 65536 = 0 := by norm_num
    rw [AttributeServer.new, assignHandles_getElem,
      List.getElem?_replicate_of_lt (by norm_num : 21845 < 21846)]
    simp only [Option.map_some']
  · decide

/-- C2: a ReadByGroupTypeReq with group type 0x2800 dispatched by
`do_work` answers with a single group-type entry
`(start_handle, end_handle, 0x2800)` for the first service with
`start_handle ≥ start` and `end_handle ≤ end`, and with an
AttributeNotFound error response carrying the request's start handle
when no service is in range; consequently, on a two-service server,
requests with start handles 1, 4, 7 enumerate service ranges (1,3) and
(4,6) in ascending order and then yield AttributeNotFound. -/
theorem c2_read_by_group_type :
    (∀ (services : List Service) (st en : Nat), st < 65536 → en < 65536 →
      do_work services (some (attReqPacket (att_encode_request
          (.readByGroupTypeReq st en (.uuid16 0x2800))))) =
        .ok [] [write_att (
          match services.find?
              (fun svc => decide (svc.startHandle ≥ st) && decide (svc.endHandle ≤ en)) with
          | some svc => att_encode_read_by_group_type_response
              [⟨svc.startHandle, svc.endHandle, .uuid16 0x2800⟩]
          | none => att_encode_error_response ATT_READ_BY_GROUP_TYPE_REQUEST_OPCODE st
              .attributeNotFound)])
    ∧ (∀ a b : Service,
        do_work (AttributeServer.new [a, b]) (some (attReqPacket (att_encode_request
            (.readByGroupTypeReq 1 0xffff (.uuid16 0x2800))))) =
          .ok [] [write_att (att_encode_read_by_group_type_response [⟨1, 3, .uuid16 0x2800⟩])]
        ∧ do_work (AttributeServer.new [a, b]) (some (attReqPacket (att_encode_request
            (.readByGroupTypeReq 4 0xffff (.uuid16 0x2800))))) =
          .ok [] [write_att (att_encode_read_by_group_type_response [⟨4, 6, .uuid16 0x2800⟩])]
        ∧ do_work (AttributeServer.new [a, b]) (some (attReqPacket (att_encode_request
            (.readByGroupTypeReq 7 0xffff (.uuid16 0x2800))))) =
          .ok [] [write_att (att_encode_error_response ATT_READ_BY_GROUP_TYPE_REQUEST_OPCODE 7
              .attributeNotFound)]) := by
  constructor
  · intro services st en hst hen
    have hwf : (Att.readByGroupTypeReq st en (.uuid16 0x2800)).wellFormed = true := by
      simp [Att.wellFormed, Uuid.wellFormed, hst, hen]
    rw [do_work_attReqPacket services _ hwf]
    simp [handle_read_by_group_type_req, PRIMARY_SERVICE_UUID16]
  · intro a b
    exact ⟨rfl, rfl, rfl⟩

/-- C2 witness: the general dispatch fact applied to the one-service
server of the repository's tests. -/
theorem c2_read_by_group_type_witness :
    (1 : Nat) < 65536 ∧ (0xffff : Nat) < 65536 ∧
    do_work (AttributeServer.new [svcSample1]) (some (attReqPacket (att_encode_request
        (.readByGroupTypeReq 1 0xffff (.uuid16 0x2800))))) =
      .ok [] [write_att (
        match (AttributeServer.new [svcSample1]).find?
            (fun svc => decide (svc.startHandle ≥ 1) && decide (svc.endHandle ≤ 0xffff)) with
        | some svc => att_encode_read_by_group_type_response
            [⟨svc.startHandle, svc.endHandle, .uuid16 0x2800⟩]
        | none => att_encode_error_response ATT_READ_BY_GROUP_TYPE_REQUEST_OPCODE 1
            .attributeNotFound)] :=
  ⟨by decide, by decide,
    c2_read_by_group_type.1 (AttributeServer.new [svcSample1]) 1 0xffff (by decide) (by decide)⟩

/-- C3: every ATT response the attribute server sends goes through
`write_att`, which wraps the ATT PDU in an L2CAP frame on fixed
channel 4 (`[len_lo, len_hi, 0x04, 0x00]`) inside an ACL packet with
packet-type byte 0x02, connection handle 0x0000, boundary flag
FirstAutoFlushable and broadcast flag NoBroadcast (flag bytes
0x00, 0x20). -/
theorem c3_response_framing :
    (∀ payload : List Nat, write_att payload =
        encode_acl_packet 0x0000 .firstAutoFlushable .noBroadcast (encode_l2cap payload))
    ∧ (∀ payload : List Nat, payload.length + 4 < 65536 →
        write_att payload =
          [0x02, 0x00, 0x20, (payload.length + 4) % 256, (payload.length + 4) / 256,
           payload.length % 256, payload.length / 256, 0x04, 0x00] ++ payload)
    ∧ (∀ (services : List Service) (packet : Option PollResult) (calls : List CallEvent)
        (written : List (List Nat)), do_work services packet = .ok calls written →
        ∀ w ∈ written, ∃ p, w = write_att p) := by
  refine ⟨fun payload => rfl, ?_, ?_⟩
  · intro payload h
    have e1 : (payload.length + 4) / 256 % 256 = (payload.length + 4) / 256 := by omega
    have e2 : payload.length / 256 % 256 = payload.length / 256 := by omega
    simp [write_att, encode_acl_packet, encode_l2cap, u16le, BoundaryFlag.toBits,
      HostBroadcastFlag.toBits, e1, e2]
  · intro services packet calls written hdw w hw
    cases packet with
    | none =>
      simp only [do_work] at hdw
      obtain ⟨-, h2⟩ := DoWorkResult.ok.inj hdw
      subst h2
      simp at hw
    | some pr =>
      cases pr with
      | event e =>
        simp only [do_work] at hdw
        obtain ⟨-, h2⟩ := DoWorkResult.ok.inj hdw
        subst h2
        simp at hw
      | asyncData p =>
        simp only [do_work] at hdw
        cases hpl : parse_l2cap p.data with
        | error e => simp [hpl] at hdw
        | ok l2capPacket =>
          simp only [hpl] at hdw
          cases hpa : parse_att l2capPacket with
          | error e => simp [hpa] at hdw
          | ok att =>
            simp only [hpa] at hdw
            cases att with
            | readByGroupTypeReq s e g =>
              obtain ⟨-, h2⟩ := DoWorkResult.ok.inj hdw
              subst h2
              simp only [List.mem_singleton] at hw
              exact ⟨_, hw⟩
            | readByTypeReq s e t =>
              obtain ⟨-, h2⟩ := DoWorkResult.ok.inj hdw
              subst h2
              simp only [List.mem_singleton] at hw
              exact ⟨_, hw⟩
            | readReq hd =>
              cases hr : handle_read_req services hd with
              | none => simp [hr] at hdw
              | some pr =>
                obtain ⟨cs, resp⟩ := pr
                simp only [hr] at hdw
                obtain ⟨-, h2⟩ := DoWorkResult.ok.inj hdw
                subst h2
                simp only [List.mem_singleton] at hw
                exact ⟨_, hw⟩
            | writeReq hd d =>
              cases hr : handle_write_req services hd d with
              | none => simp [hr] at hdw
              | some pr =>
                obtain ⟨cs, resp⟩ := pr
                simp only [hr] at hdw
                obtain ⟨-, h2⟩ := DoWorkResult.ok.inj hdw
                subst h2
                simp only [List.mem_singleton] at hw
                exact ⟨_, hw⟩

/-- C3 witness: the framing facts applied to the one-byte write
response: the transport sees the 10 bytes
`02 00 20 05 00 01 00 04 00 13`. -/
theorem c3_response_framing_witness :
    ([0x13] : List Nat).length + 4 < 65536 ∧
    write_att [0x13] =
      [0x02, 0x00, 0x20, (([0x13] : List Nat).length + 4) % 256,
       (([0x13] : List Nat).length + 4) / 256, ([0x13] : List Nat).length % 256,
       ([0x13] : List Nat).length / 256, 0x04, 0x00] ++ [0x13] :=
  ⟨by decide, by
    have h := c3_response_framing.2.1 [0x13] (by decide)
    simpa using h⟩

/-- C4: a ReadByTypeReq with attribute type 0x2803 dispatched by
`do_work` answers with one type-response entry at handle
`start_handle + 1` whose value is
`[permissions, characteristics_handle u16 LE, uuid bytes]`, taken from
the first service with `start_handle ≥ start` and `end_handle ≤ end`;
with no service in range it answers with an AttributeNotFound error
response. -/
theorem c4_read_by_type (services : List Service) (st en : Nat)
    (hst : st < 65536) (hen : en < 65536)
    (hb : ∀ svc ∈ services, svc.startHandle + 1 < 65536) :
    do_work services (some (attReqPacket (att_encode_request
        (.readByTypeReq st en (.uuid16 0x2803))))) =
      .ok [] [write_att (
        match services.find?
            (fun svc => decide (svc.startHandle ≥ st) && decide (svc.endHandle ≤ en)) with
        | some svc => att_encode_read_by_type_response
            [⟨svc.startHandle + 1,
              svc.permissions :: (u16le svc.characteristicsHandle ++ svc.uuid.encode)⟩]
        | none => att_encode_error_response ATT_READ_BY_TYPE_REQUEST_OPCODE st
            .attributeNotFound)] := by
  have hwf : (Att.readByTypeReq st en (.uuid16 0x2803)).wellFormed = true := by
    simp [Att.wellFormed, Uuid.wellFormed, hst, hen]
  rw [do_work_attReqPacket services _ hwf]
  cases hf : services.find?
      (fun svc => decide (svc.startHandle ≥ st) && decide (svc.endHandle ≤ en)) with
  | none => simp [handle_read_by_type_req, CHARACTERISTIC_UUID16, hf]
  | some s =>
    have hmem := List.mem_of_find?_eq_some hf
    have h1 : (s.startHandle + 1) % 65536 = s.startHandle + 1 := by
      have := hb s hmem
      omega
    simp [handle_read_by_type_req, CHARACTERISTIC_UUID16, hf, h1]

/-- C4 witness: the characteristic-declaration response of the
repository's one-service test, via the general theorem. -/
theorem c4_read_by_type_witness :
    (1 : Nat) < 65536 ∧ (3 : Nat) < 65536 ∧
    (∀ svc ∈ AttributeServer.new [svcSample1], svc.startHandle + 1 < 65536) ∧
    do_work (AttributeServer.new [svcSample1]) (some (attReqPacket (att_encode_request
        (.readByTypeReq 1 3 (.uuid16 0x2803))))) =
      .ok [] [write_att (
        match (AttributeServer.new [svcSample1]).find?
            (fun svc => decide (svc.startHandle ≥ 1) && decide (svc.endHandle ≤ 3)) with
        | some svc => att_encode_read_by_type_response
            [⟨svc.startHandle + 1,
              svc.permissions :: (u16le svc.characteristicsHandle ++ svc.uuid.encode)⟩]
        | none => att_encode_error_response ATT_READ_BY_TYPE_REQUEST_OPCODE 1
            .attributeNotFound)] :=
  ⟨by decide, by decide, by decide,
    c4_read_by_type (AttributeServer.new [svcSample1]) 1 3 (by decide) (by decide) (by decide)⟩

/-- C5: a ReadReq (resp. WriteReq) whose handle equals the
characteristics_handle of the service at index i (the first such
service) makes `do_work` invoke exactly that service's read callback
(resp. write callback, passed the received value) exactly once, and
respond with a read response wrapping the callback's returned buffer
(resp. the empty write response, opcode byte 0x13). -/
theorem c5_read_write_dispatch (services : List Service) (h i : Nat)
    (hh : h < 65536) (hi : i < services.length)
    (hmatch : (services.get ⟨i, hi⟩).characteristicsHandle = h)
    (hfirst : ∀ j (hj : j < services.length), j < i →
      (services.get ⟨j, hj⟩).characteristicsHandle ≠ h) :
    do_work services (some (attReqPacket (att_encode_request (.readReq h)))) =
      .ok [.readCall i]
        [write_att (att_encode_read_response (services.get ⟨i, hi⟩).readReturn)]
    ∧ ∀ d : List Nat, d.length < 65533 →
      do_work services (some (attReqPacket (att_encode_request (.writeReq h d)))) =
        .ok [.writeCall i d] [write_att att_encode_write_response] := by
  have hfind : findService services h = some (i, services.get ⟨i, hi⟩) := by
    have := findServiceAux_spec services h 0 i hi hmatch hfirst
    simpa [findService] using this
  constructor
  · have hwf : (Att.readReq h).wellFormed = true := by simp [Att.wellFormed, hh]
    rw [do_work_attReqPacket _ _ hwf]
    simp [handle_read_req, hfind]
  · intro d hd
    have hwf : (Att.writeReq h d).wellFormed = true := by simp [Att.wellFormed, hh, hd]
    rw [do_work_attReqPacket _ _ hwf]
    simp [handle_write_req, hfind]

/-- C5 witness: on the two-service server, handle 6 belongs to service 1;
a read invokes its callback and returns its (empty) buffer, a write of
`[0xab]` invokes its write callback with that value. -/
theorem c5_read_write_dispatch_witness :
    (6 : Nat) < 65536 ∧ 1 < (AttributeServer.new [svcSample1, svcSample2]).length ∧
    do_work (AttributeServer.new [svcSample1, svcSample2])
        (some (attReqPacket (att_encode_request (.readReq 6)))) =
      .ok [.readCall 1]
        [write_att (att_encode_read_response
          ((AttributeServer.new [svcSample1, svcSample2]).get ⟨1, by decide⟩).readReturn)]
    ∧ do_work (AttributeServer.new [svcSample1, svcSample2])
        (some (attReqPacket (att_encode_request (.writeReq 6 [0xab])))) =
      .ok [.writeCall 1 [0xab]] [write_att att_encode_write_response] := by
  have h := c5_read_write_dispatch (AttributeServer.new [svcSample1, svcSample2]) 6 1
    (by decide) (by decide) (by decide)
    (by
      intro j hj hj1
      have hj0 : j = 0 := by omega
      subst hj0
      exact (by decide :
        ((AttributeServer.new [svcSample1, svcSample2]).get
          ⟨0, by decide⟩).characteristicsHandle ≠ 6))
  exact ⟨by decide, by decide, h.1, h.2 [0xab] (by decide)⟩

/-- C6: a ReadReq or WriteReq whose handle matches no registered
service's characteristics_handle drives `do_work` into the fatal-abort
(panic) branch of `handle_read_req` / `handle_write_req` instead of
producing any response. -/
theorem c6_unmatched_handle_fatal (services : List Service) (h : Nat)
    (hh : h < 65536)
    (hnone : ∀ svc ∈ services, svc.characteristicsHandle ≠ h) :
    do_work services (some (attReqPacket (att_encode_request (.readReq h)))) = .fatalAbort
    ∧ ∀ d : List Nat, d.length < 65533 →
      do_work services (some (attReqPacket (att_encode_request (.writeReq h d)))) =
        .fatalAbort := by
  have hfind : findService services h = none := findServiceAux_none h services hnone 0
  constructor
  · have hwf : (Att.readReq h).wellFormed = true := by simp [Att.wellFormed, hh]
    rw [do_work_attReqPacket _ _ hwf]
    simp [handle_read_req, hfind]
  · intro d hd
    have hwf : (Att.writeReq h d).wellFormed = true := by simp [Att.wellFormed, hh, hd]
    rw [do_work_attReqPacket _ _ hwf]
    simp [handle_write_req, hfind]

/-- C6 witness: on the one-service server (handles (1,3,3)), handle 5 is
unregistered and both requests hit the fatal-abort branch. -/
theorem c6_unmatched_handle_fatal_witness :
    (5 : Nat) < 65536 ∧
    (∀ svc ∈ AttributeServer.new [svcSample1], svc.characteristicsHandle ≠ 5) ∧
    do_work (AttributeServer.new [svcSample1])
        (some (attReqPacket (att_encode_request (.readReq 5)))) = .fatalAbort
    ∧ do_work (AttributeServer.new [svcSample1])
        (some (attReqPacket (att_encode_request (.writeReq 5 [0xab])))) = .fatalAbort := by
  have h := c6_unmatched_handle_fatal (AttributeServer.new [svcSample1]) 5
    (by decide) (by decide)
  exact ⟨by decide, by decide, h.1, h.2 [0xab] (by decide)⟩

/-- C7: `init()` always writes exactly the serialized Reset command
`[0x01, 0x03, 0x0c, 0x00]`; an arriving CommandComplete with opcode
0x0c03 and zero status byte is returned, a non-zero status byte yields
Failed(status), and with no matching event and monotonic clock
readings 0, 100, 2000 ms the fixed 1000 ms threshold yields Timeout. -/
theorem c7_init :
    (∀ (polls : List (Option PollResult)) (clocks : List Nat),
      (Ble.init polls clocks).written = [0x01, 0x03, 0x0c, 0x00])
    ∧ (∀ (n : Nat) (data : List Nat) (polls : List (Option PollResult)) (clocks : List Nat),
        data.headD 0 = 0 →
        (Ble.init (some (.event (.commandComplete n 0x0c03 data)) :: polls) clocks).result
          = .ok (.commandComplete n 0x0c03 data))
    ∧ (∀ (n s : Nat) (data : List Nat) (polls : List (Option PollResult))
        (clocks : List Nat), data.headD 0 = s → s ≠ 0 →
        (Ble.init (some (.event (.commandComplete n 0x0c03 data)) :: polls) clocks).result
          = .error (.failed s))
    ∧ (Ble.init [] [0, 100, 2000]).result = .error .timeout := by
  refine ⟨fun polls clocks => rfl, ?_, ?_, by decide⟩
  · intro n data polls clocks hdata
    simp only [List.headD_eq_head?_getD] at hdata
    cases htl : clocks.tail <;>
      simp [Ble.init, htl, waitCommandComplete, checkCommandComplete, Command.opcode, hdata]
  · intro n s data polls clocks hdata hs
    simp only [List.headD_eq_head?_getD] at hdata
    cases htl : clocks.tail <;>
      simp [Ble.init, htl, waitCommandComplete, checkCommandComplete, Command.opcode, hdata, hs]

/-- C7 witness: the three behaviors at the transport inputs of the
repository's `init_works`, `init_fails` and `init_fails_timeout` tests. -/
theorem c7_init_witness :
    (Ble.init [some (.event (.commandComplete 5 0x0c03 [0]))] [0]).written
      = [0x01, 0x03, 0x0c, 0x00]
    ∧ ([0] : List Nat).headD 0 = 0
    ∧ (Ble.init [some (.event (.commandComplete 5 0x0c03 [0]))] [0]).result
      = .ok (.commandComplete 5 0x0c03 [0])
    ∧ ([0xff] : List Nat).headD 0 = 0xff ∧ (0xff : Nat) ≠ 0
    ∧ (Ble.init [some (.event (.commandComplete 5 0x0c03 [0xff]))] [0]).result
      = .error (.failed 0xff) :=
  ⟨c7_init.1 [some (.event (.commandComplete 5 0x0c03 [0]))] [0],
   by decide,
   c7_init.2.1 5 [0] [] [0] (by decide),
   by decide, by decide,
   c7_init.2.2.1 5 0xff [0xff] [] [0] (by decide) (by decide)⟩

/-- C8: for each codec layer, encode and parse are mutually inverse:
`parse (encode v) = v` for every well-formed value within field ranges
(L2CAP payloads shorter than 2^16; ACL handles below 2^12; ATT handles
and 16-bit UUIDs below 2^16, 128-bit UUIDs of 16 bytes), and
`encode (parse bytes) = bytes` for every byte sequence that parse
accepts.  Broadcast flags are direction-asymmetric, so the roundtrips
identify host and controller flags with the same 2-bit pattern. -/
theorem c8_codec_roundtrips :
    (∀ p : List Nat, p.length < 65536 → parse_l2cap (encode_l2cap p) = .ok p)
    ∧ (∀ (bytes p : List Nat), (∀ b ∈ bytes, b < 256) → parse_l2cap bytes = .ok p →
        encode_l2cap p = bytes)
    ∧ (∀ (h : Nat) (pb : BoundaryFlag) (bc : HostBroadcastFlag) (payload : List Nat),
        h < 4096 → payload.length < 65536 →
        parse_acl_packet (encode_acl_packet h pb bc payload) =
          some ⟨h, pb, ControllerBroadcastFlag.ofBits bc.toBits, payload⟩)
    ∧ (∀ (bytes : List Nat) (p : AclPacket), (∀ b ∈ bytes, b < 256) →
        parse_acl_packet bytes = some p →
        encode_acl_packet p.handle p.boundaryFlag
          (HostBroadcastFlag.ofBits p.bcFlag.toBits) p.data = bytes)
    ∧ (∀ r : Att, r.wellFormed = true → parse_att (att_encode_request r) = .ok r)
    ∧ (∀ (bytes : List Nat) (r : Att), (∀ b ∈ bytes, b < 256) → parse_att bytes = .ok r →
        att_encode_request r = bytes) :=
  ⟨parse_l2cap_encode, encode_parse_l2cap, parse_acl_encode, encode_parse_acl,
   parse_att_encode, att_encode_parse⟩

/-- C8 witness: both directions of all three codec pairs at concrete
inputs (an L2CAP frame of payload `[9,9,9]`, an ACL packet with handle
0 and a one-byte payload, and a ReadReq for handle 3). -/
theorem c8_codec_roundtrips_witness :
    (([1, 2, 3] : List Nat).length < 65536
      ∧ parse_l2cap (encode_l2cap [1, 2, 3]) = .ok [1, 2, 3])
    ∧ ((∀ b ∈ ([3, 0, 4, 0, 9, 9, 9] : List Nat), b < 256)
      ∧ parse_l2cap [3, 0, 4, 0, 9, 9, 9] = .ok [9, 9, 9]
      ∧ encode_l2cap [9, 9, 9] = [3, 0, 4, 0, 9, 9, 9])
    ∧ ((0 : Nat) < 4096 ∧ ([1] : List Nat).length < 65536
      ∧ parse_acl_packet (encode_acl_packet 0 .firstAutoFlushable .noBroadcast [1]) =
          some ⟨0, .firstAutoFlushable,
            ControllerBroadcastFlag.ofBits HostBroadcastFlag.noBroadcast.toBits, [1]⟩)
    ∧ ((∀ b ∈ ([0x02, 0x00, 0x20, 1, 0, 7] : List Nat), b < 256)
      ∧ parse_acl_packet [0x02, 0x00, 0x20, 1, 0, 7] =
          some ⟨0, .firstAutoFlushable, .pointToPoint, [7]⟩
      ∧ encode_acl_packet (AclPacket.mk 0 .firstAutoFlushable .pointToPoint [7]).handle
          (AclPacket.mk 0 .firstAutoFlushable .pointToPoint [7]).boundaryFlag
          (HostBroadcastFlag.ofBits
            (AclPacket.mk 0 .firstAutoFlushable .pointToPoint [7]).bcFlag.toBits)
          (AclPacket.mk 0 .firstAutoFlushable .pointToPoint [7]).data
        = [0x02, 0x00, 0x20, 1, 0, 7])
    ∧ ((Att.readReq 3).wellFormed = true
      ∧ parse_att (att_encode_request (.readReq 3)) = .ok (.readReq 3))
    ∧ ((∀ b ∈ ([0x0a, 3, 0] : List Nat), b < 256)
      ∧ parse_att [0x0a, 3, 0] = .ok (.readReq 3)
      ∧ att_encode_request (.readReq 3) = [0x0a, 3, 0]) :=
  ⟨⟨by decide, c8_codec_roundtrips.1 [1, 2, 3] (by decide)⟩,
   ⟨by decide, by decide,
     c8_codec_roundtrips.2.1 [3, 0, 4, 0, 9, 9, 9] [9, 9, 9] (by decide) (by decide)⟩,
   ⟨by decide, by decide,
     c8_codec_roundtrips.2.2.1 0 .firstAutoFlushable .noBroadcast [1] (by decide) (by decide)⟩,
   ⟨by decide, by decide,
     c8_codec_roundtrips.2.2.2.1 [0x02, 0x00, 0x20, 1, 0, 7]
       (AclPacket.mk 0 .firstAutoFlushable .pointToPoint [7]) (by decide) (by decide)⟩,
   ⟨by decide, c8_codec_roundtrips.2.2.2.2.1 (.readReq 3) (by decide)⟩,
   ⟨by decide, by decide,
     c8_codec_roundtrips.2.2.2.2.2 [0x0a, 3, 0] (.readReq 3) (by decide) (by decide)⟩⟩

/-- C9: `parse_att` dispatches on the first opcode byte to exactly the
four request shapes 0x10 ReadByGroupTypeReq, 0x08 ReadByTypeReq,
0x0a ReadReq, 0x12 WriteReq; every payload starting with any other
opcode fails with an unsupported-opcode `AttParseError`. -/
theorem c9_att_opcode_dispatch :
    (∀ (op : Nat) (rest : List Nat), op ≠ 0x10 → op ≠ 0x08 → op ≠ 0x0a → op ≠ 0x12 →
      parse_att (op :: rest) = .error (.unsupportedOpcode op))
    ∧ (∀ (payload : List Nat) (r : Att), parse_att payload = .ok r →
        (∃ rest, payload = 0x10 :: rest ∧ ∃ s e u, r = .readByGroupTypeReq s e u)
        ∨ (∃ rest, payload = 0x08 :: rest ∧ ∃ s e u, r = .readByTypeReq s e u)
        ∨ (∃ rest, payload = 0x0a :: rest ∧ ∃ h, r = .readReq h)
        ∨ (∃ rest, payload = 0x12 :: rest ∧ ∃ h d, r = .writeReq h d)) := by
  constructor
  · intro op rest h10 h08 h0a h12
    simp [parse_att, ATT_READ_BY_GROUP_TYPE_REQUEST_OPCODE,
      ATT_READ_BY_TYPE_REQUEST_OPCODE, ATT_READ_REQUEST_OPCODE,
      ATT_WRITE_REQUEST_OPCODE, h10, h08, h0a, h12]
  · intro payload r hp
    match payload, hp with
    | op :: rest, hp =>
      simp only [parse_att, ATT_READ_BY_GROUP_TYPE_REQUEST_OPCODE,
        ATT_READ_BY_TYPE_REQUEST_OPCODE, ATT_READ_REQUEST_OPCODE,
        ATT_WRITE_REQUEST_OPCODE] at hp
      by_cases h10 : op = 0x10
      · subst h10
        rw [if_pos rfl] at hp
        refine Or.inl ?_
        match rest, hp with
        | s0 :: s1 :: e0 :: e1 :: ub, hp =>
          cases hu : parseUuidBytes ub with
          | none => simp [hu] at hp
          | some u =>
            simp only [hu] at hp
            have hre := Except.ok.inj hp
            subst hre
            exact ⟨_, rfl, _, _, _, rfl⟩
      · rw [if_neg h10] at hp
        by_cases h08 : op = 0x08
        · subst h08
          rw [if_pos rfl] at hp
          refine Or.inr (Or.inl ?_)
          match rest, hp with
          | s0 :: s1 :: e0 :: e1 :: ub, hp =>
            cases hu : parseUuidBytes ub with
            | none => simp [hu] at hp
            | some u =>
              simp only [hu] at hp
              have hre := Except.ok.inj hp
              subst hre
              exact ⟨_, rfl, _, _, _, rfl⟩
        · rw [if_neg h08] at hp
          by_cases h0a : op = 0x0a
          · subst h0a
            rw [if_pos rfl] at hp
            refine Or.inr (Or.inr (Or.inl ?_))
            match rest, hp with
            | [h0, h1], hp =>
              have hre := Except.ok.inj hp
              subst hre
              exact ⟨_, rfl, _, rfl⟩
          · rw [if_neg h0a] at hp
            by_cases h12 : op = 0x12
            · subst h12
              rw [if_pos rfl] at hp
              refine Or.inr (Or.inr (Or.inr ?_))
              match rest, hp with
              | h0 :: h1 :: value, hp =>
                have hre := Except.ok.inj hp
                subst hre
                exact ⟨_, rfl, _, _, rfl⟩
            · rw [if_neg h12] at hp
              exact absurd hp (by simp)

/-- C9 witness: opcode 0x0b is rejected as unsupported; the accepted
payload `[0x0a, 3, 0]` classifies as a ReadReq. -/
theorem c9_att_opcode_dispatch_witness :
    ((0x0b : Nat) ≠ 0x10 ∧ (0x0b : Nat) ≠ 0x08 ∧ (0x0b : Nat) ≠ 0x0a ∧ (0x0b : Nat) ≠ 0x12
      ∧ parse_att [0x0b] = .error (.unsupportedOpcode 0x0b))
    ∧ (parse_att [0x0a, 3, 0] = .ok (.readReq 3)
      ∧ ((∃ rest, ([0x0a, 3, 0] : List Nat) = 0x10 :: rest
            ∧ ∃ s e u, Att.readReq 3 = .readByGroupTypeReq s e u)
        ∨ (∃ rest, ([0x0a, 3, 0] : List Nat) = 0x08 :: rest
            ∧ ∃ s e u, Att.readReq 3 = .readByTypeReq s e u)
        ∨ (∃ rest, ([0x0a, 3, 0] : List Nat) = 0x0a :: rest ∧ ∃ h, Att.readReq 3 = .readReq h)
        ∨ (∃ rest, ([0x0a, 3, 0] : List Nat) = 0x12 :: rest
            ∧ ∃ h d, Att.readReq 3 = .writeReq h d))) :=
  ⟨⟨by decide, by decide, by decide, by decide,
    c9_att_opcode_dispatch.1 0x0b [] (by decide) (by decide) (by decide) (by decide)⟩,
   ⟨by decide,
    c9_att_opcode_dispatch.2 [0x0a, 3, 0] (.readReq 3) (by decide)⟩⟩

/-- C10: a ReadByGroupTypeReq whose group type differs from 0x2800 and a
ReadByTypeReq whose attribute type differs from 0x2803 both make
`do_work` return Ok and respond with an AttributeNotFound error
response carrying the request's start handle — the same response as a
range miss. -/
theorem c10_unhandled_uuid_error (services : List Service) (st en : Nat) (u : Uuid)
    (hst : st < 65536) (hen : en < 65536) (hu : u.wellFormed = true) :
    (u ≠ .uuid16 0x2800 →
      do_work services (some (attReqPacket (att_encode_request
          (.readByGroupTypeReq st en u)))) =
        .ok [] [write_att (att_encode_error_response ATT_READ_BY_GROUP_TYPE_REQUEST_OPCODE
          st .attributeNotFound)])
    ∧ (u ≠ .uuid16 0x2803 →
      do_work services (some (attReqPacket (att_encode_request
          (.readByTypeReq st en u)))) =
        .ok [] [write_att (att_encode_error_response ATT_READ_BY_TYPE_REQUEST_OPCODE
          st .attributeNotFound)]) := by
  constructor
  · intro hne
    have hwf : (Att.readByGroupTypeReq st en u).wellFormed = true := by
      simp [Att.wellFormed, hst, hen, hu]
    rw [do_work_attReqPacket services _ hwf]
    simp [handle_read_by_group_type_req, PRIMARY_SERVICE_UUID16, hne]
  · intro hne
    have hwf : (Att.readByTypeReq st en u).wellFormed = true := by
      simp [Att.wellFormed, hst, hen, hu]
    rw [do_work_attReqPacket services _ hwf]
    simp [handle_read_by_type_req, CHARACTERISTIC_UUID16, hne]

/-- C10 witness: the 0x2802 requests of the repository's test yield the
AttributeNotFound responses for start handle 1 on the one-service
server. -/
theorem c10_unhandled_uuid_error_witness :
    (1 : Nat) < 65536 ∧ (0xffff : Nat) < 65536
    ∧ Uuid.wellFormed (.uuid16 0x2802) = true
    ∧ (Uuid.uuid16 0x2802) ≠ .uuid16 0x2800 ∧ (Uuid.uuid16 0x2802) ≠ .uuid16 0x2803
    ∧ do_work (AttributeServer.new [svcSample1]) (some (attReqPacket (att_encode_request
          (.readByGroupTypeReq 1 0xffff (.uuid16 0x2802))))) =
        .ok [] [write_att (att_encode_error_response ATT_READ_BY_GROUP_TYPE_REQUEST_OPCODE
          1 .attributeNotFound)]
    ∧ do_work (AttributeServer.new [svcSample1]) (some (attReqPacket (att_encode_request
          (.readByTypeReq 1 0xffff (.uuid16 0x2802))))) =
        .ok [] [write_att (att_encode_error_response ATT_READ_BY_TYPE_REQUEST_OPCODE
          1 .attributeNotFound)] :=
  ⟨by decide, by decide, by decide, by decide, by decide,
   (c10_unhandled_uuid_error (AttributeServer.new [svcSample1]) 1 0xffff (.uuid16 0x2802)
     (by decide) (by decide) (by decide)).1 (by decide),
   (c10_unhandled_uuid_error (AttributeServer.new [svcSample1]) 1 0xffff (.uuid16 0x2802)
     (by decide) (by decide) (by decide)).2 (by decide)⟩

end BleHci
